import Mathlib

/-!
Verification of the polybar internet-speed helper (src/src/main.rs).

The program checks the age of a cached measurement file, either loads the
cached measurement or invokes the external `fast` tool, persists a fresh
measurement to the cache, and prints one status line.

The embedding translates each Rust function into a Lean function over an
explicit environment `Env` that supplies the results of the primitive
effects (environment variable lookup, file metadata, the outcome of the
spawned command, file reads and writes).  Effects performed by a function (writes,
spawn attempts, log lines, stdout lines) are returned explicitly.
A Rust panic (from `.expect`) is modelled by the `PanicOr.panic`
constructor; a normal return by `PanicOr.ret`.
-/

namespace PolybarSpeed

/-- The `Fast` struct from src/src/main.rs: `downloadSpeed: u32`,
`latency: u32`.  The u32 fields are modelled as `Nat`; no claim involves
overflow and the program performs no arithmetic on them. -/
structure Fast where
  downloadSpeed : Nat
  latency : Nat
deriving DecidableEq

/-- Result of `Command::output()` when the child could be spawned:
exit-status success flag plus captured stdout and stderr. -/
structure CmdOutput where
  success : Bool
  stdout : String
  stderr : String

/-- Result of `fs::metadata`: whether the path is a regular file, and the
result of `.modified()` as seconds since the epoch. -/
structure FileMeta where
  isFile : Bool
  modified : Except String Int

/-- The ambient world the program runs in: results of every primitive
effect the source performs. -/
structure Env where
  /-- Result of `env::var("XDG_CACHE_HOME")`. -/
  xdgCacheHome : Except String String
  /-- Result of `fs::metadata(file)` together with `.is_file()` and `.modified()`. -/
  metadata : String → Except String FileMeta
  /-- Value of `Local::now()` in seconds since the epoch. -/
  nowSec : Int
  /-- Result of `Command::new("fast").arg("--json").output()`: `.error` means the
  child could not be spawned at all. -/
  fastSpawn : Except String CmdOutput
  /-- Decoder `serde_json::from_str::<Fast>` applied to the tool stdout; the
  serde_json codec is an external collaborator, supplied by the world. -/
  jsonParse : String → Except String Fast
  /-- Result of `fs::read_to_string(path)`. -/
  readFile : String → Except String String
  /-- Whether `fs::write(path, contents)` succeeds. -/
  writeFile : String → String → Except String Unit

/-- A Rust computation that either returns normally or panics
(`.expect`, `.unwrap`). -/
inductive PanicOr (α : Type) where
  | panic (msg : String)
  | ret (a : α)
deriving DecidableEq

/-- Source constant `const BUFFER_FILE_PATH: &str = ".polybar-internet-speed.toml";` -/
def BUFFER_FILE_PATH : String := ".polybar-internet-speed.toml"

/-- Model of `PathBuf::from(base).join(rel)` for a relative `rel`: appends a `/`
separator unless `base` is empty or already ends with one. -/
def pathJoin (base rel : String) : String :=
  if base = "" then rel
  else if base.endsWith "/" then base ++ rel
  else base ++ "/" ++ rel

/-- Translation of `get_buffered_filename` (src/src/main.rs:91-106): read
`XDG_CACHE_HOME` and join it with `BUFFER_FILE_PATH`.  The `path.to_str()`
`None` branch is unreachable in the model, where paths are strings. -/
def get_buffered_filename (env : Env) : Except String String :=
  match env.xdgCacheHome with
  | .error e => .error ("Failed to get XDG_CACHE_HOME: " ++ e)
  | .ok xdg => .ok (pathJoin xdg BUFFER_FILE_PATH)

/-- The message of the chrono `OutOfRangeError`, produced by `.to_std()` on
a negative signed duration, wrapped by the `format!` in the source. -/
def elapsedErrMsg : String :=
  "Failed to get elapsed time. Error \x27Source duration value is out of range for the target type\x27"

/-- Translation of `get_seconds_since_file_modified` (src/src/main.rs:17-50): stat the
file, require it to be a regular file, read its modification time and
return the elapsed wall-clock seconds; `.to_std()` fails when the signed
duration is negative (modification time in the future). -/
def get_seconds_since_file_modified (env : Env) (file : String) : Except String Nat :=
  match env.metadata file with
  | .error e =>
      .error ("Failed to get metadata for file: \x27" ++ file ++ "\x27. Error: \x27" ++ e ++ "\x27")
  | .ok fmeta =>
      if !fmeta.isFile then
        .error ("\x27" ++ file ++ "\x27 is not a file!")
      else
        match fmeta.modified with
        | .error e =>
            .error ("Failed to get file modified time for file: \x27" ++ file ++ "\x27. Error \x27" ++ e ++ "\x27")
        | .ok ftime =>
            if env.nowSec - ftime < 0 then
              .error elapsedErrMsg
            else
              .ok (env.nowSec - ftime).toNat

/-- Translation of `get_internet_info` (src/src/main.rs:52-73): spawn `fast --json`; on a
spawn failure the source calls `.expect("Failed to execute command")`,
which panics.  On non-success exit status it returns the captured stderr
as an error; otherwise it decodes the stdout as JSON.  Returns the result
together with the `info!` log lines emitted. -/
def get_internet_info (env : Env) : PanicOr (Except String Fast × List String) :=
  match env.fastSpawn with
  | .error _ => .panic "Failed to execute command"
  | .ok output =>
      if !output.success then
        .ret (.error ("\tCommand failed:\n" ++ output.stderr), [])
      else
        let infos := ["Command output: " ++ output.stdout]
        match env.jsonParse output.stdout with
        | .ok f => .ret (.ok f, infos)
        | .error e => .ret (.error ("Failed to parse JSON: " ++ e), infos)

/-! ### The TOML codec

The source delegates encoding to `toml::to_string` and decoding to
`toml::from_str`, both from the external `toml` crate.  Modelled from the
spec: the on-disk serialization codec is "an opaque structured-text
codec" over the two required Measurement fields; the model below is the
canonical flat TOML document the crate produces for the `Fast` struct
(`downloadSpeed = <n>\nlatency = <n>\n`, fields in declaration order) and
a decoder for exactly that shape. -/

/-- The decimal digit character for a digit value `d < 10`. -/
def digitCh (d : Nat) : Char := Char.ofNat (48 + d)

/-- Decimal rendering of a natural number as a list of characters,
most significant digit first. -/
def natChars (n : Nat) : List Char :=
  if n = 0 then ['0'] else (Nat.digits 10 n).reverse.map digitCh

/-- Decimal rendering of a natural number as a string. -/
def natToString (n : Nat) : String := String.mk (natChars n)

/-- Whether a character is a decimal digit. -/
def isDigitCh (c : Char) : Bool := decide (48 ≤ c.toNat) && decide (c.toNat ≤ 57)

/-- The value of a decimal digit character. -/
def digitVal (c : Char) : Nat := c.toNat - 48

/-- Consume a maximal run of decimal digits, accumulating their value
into `acc`; returns the value and the unconsumed rest. -/
def readDigits : List Char → Nat → Nat × List Char
  | [], acc => (acc, [])
  | c :: cs, acc =>
      if isDigitCh c then readDigits cs (10 * acc + digitVal c) else (acc, c :: cs)

/-- Remove an expected literal from the front of the input; `none` when
the input does not start with it. -/
def stripLit : List Char → List Char → Option (List Char)
  | [], cs => some cs
  | _ :: _, [] => none
  | p :: ps, c :: cs => if c = p then stripLit ps cs else none

/-- Parse a nonempty run of decimal digits into a natural number. -/
def parseNatCh (cs : List Char) : Option (Nat × List Char) :=
  match cs with
  | [] => none
  | c :: _ => if isDigitCh c then some (readDigits cs 0) else none

/-- Model of `toml::to_string(&info)` for the `Fast` struct: the canonical flat
document with the fields in declaration order. -/
def tomlEncodeFast (info : Fast) : String :=
  String.mk ("downloadSpeed = ".data ++ (natChars info.downloadSpeed
    ++ ('\n' :: ("latency = ".data ++ (natChars info.latency ++ ['\n'])))))

/-- Model of `toml::from_str::<Fast>` restricted to the canonical documents
`tomlEncodeFast` produces; any other shape is a decode error. -/
def tomlDecodeFastCh (cs : List Char) : Except String Fast :=
  match stripLit "downloadSpeed = ".data cs with
  | none => .error "TOML parse error: expected key downloadSpeed"
  | some cs1 =>
      match parseNatCh cs1 with
      | none => .error "TOML parse error: expected integer for downloadSpeed"
      | some (d, cs2) =>
          match cs2 with
          | '\n' :: cs3 =>
              match stripLit "latency = ".data cs3 with
              | none => .error "TOML parse error: expected key latency"
              | some cs4 =>
                  match parseNatCh cs4 with
                  | none => .error "TOML parse error: expected integer for latency"
                  | some (l, cs5) =>
                      match cs5 with
                      | ['\n'] => .ok ⟨d, l⟩
                      | _ => .error "TOML parse error: trailing input"
          | _ => .error "TOML parse error: expected newline after downloadSpeed"

/-- Model of `toml::from_str::<Fast>` on a string. -/
def tomlFromStrFast (s : String) : Except String Fast := tomlDecodeFastCh s.data

/-- Model of `toml::to_string` as the source sees it: a `Result`.  Serializing the
flat two-integer `Fast` struct cannot fail in the `toml` crate, so the
model always succeeds; the error branch of the source is retained in
`write_buffered_file` below. -/
def tomlToString (info : Fast) : Except String String := .ok (tomlEncodeFast info)

/-- Translation of `write_buffered_file` (src/src/main.rs:75-89): encode to TOML, then
`fs::write`.  The second component records the write attempts made
(path, contents). -/
def write_buffered_file (env : Env) (file : String) (info : Fast) :
    Except String Unit × List (String × String) :=
  match tomlToString info with
  | .error e => (.error ("Failed to convert to TOML: " ++ e), [])
  | .ok toml =>
      match env.writeFile file toml with
      | .ok _ => (.ok (), [(file, toml)])
      | .error e => (.error ("Failed to write buffered file: " ++ e), [(file, toml)])

/-- The observable outcome of `get_new_internet_info`: its result, the
`info!` log lines, the cache-write attempts, and the number of times the
external tool was invoked. -/
structure FetchOut where
  result : Except String Fast
  infos : List String
  writes : List (String × String)
  spawns : Nat

/-- Translation of `get_new_internet_info` (src/src/main.rs:108-128): fetch from the
tool, resolve the cache path, write the cache file, and return the
fetched measurement.  Each error is re-wrapped with `format!("{}", e)`,
the identity on the message. -/
def get_new_internet_info (env : Env) : PanicOr FetchOut :=
  match get_internet_info env with
  | .panic m => .panic m
  | .ret (.error e, infos) => .ret ⟨.error e, infos, [], 1⟩
  | .ret (.ok info, infos) =>
      match get_buffered_filename env with
      | .error e => .ret ⟨.error e, infos, [], 1⟩
      | .ok path =>
          match write_buffered_file env path info with
          | (.ok _, ws) => .ret ⟨.ok info, infos, ws, 1⟩
          | (.error e, ws) => .ret ⟨.error e, infos, ws, 1⟩

/-- Translation of `get_buffered_internet_info` (src/src/main.rs:130-151): resolve the
cache path, read the file, decode the TOML.  The second component is the
`error!` log lines the function itself emits (one on TOML parse
failure). -/
def get_buffered_internet_info (env : Env) : Except String Fast × List String :=
  match get_buffered_filename env with
  | .error e => (.error e, [])
  | .ok path =>
      match env.readFile path with
      | .error e => (.error ("Failed to read file: " ++ e), [])
      | .ok file_contents =>
          match tomlFromStrFast file_contents with
          | .ok info => (.ok info, [])
          | .error e => (.error e, ["Failed to parse TOML: " ++ e])

/-! ### Presentation and the `main` orchestration -/

/-- The "good"-band icon (`0..=50`): green color tag around the glyph. -/
def goodIcon : String := "%\x7bF#3cb703\x7d%\x7bF-\x7d"

/-- The "warning"-band icon (`51..=150`): yellow color tag. -/
def warnIcon : String := "%\x7bF#f9dd04\x7d%\x7bF-\x7d"

/-- The "bad"-band icon (`_`, latency above 150): red color tag. -/
def badIcon : String := "%\x7bF#d60606\x7d%\x7bF-\x7d"

/-- The `match info.latency` selecting the icon (src/src/main.rs:224-228). -/
def iconOf (latency : Nat) : String :=
  if latency ≤ 50 then goodIcon
  else if latency ≤ 150 then warnIcon
  else badIcon

/-- The single line printed by `println!` (src/src/main.rs:230). -/
def statusLine (info : Fast) : String :=
  iconOf info.latency ++ " " ++ natToString info.latency
    ++ " ms  " ++ natToString info.downloadSpeed ++ " Mbps"

/-- The observable outcome of a whole run of `main`: normal return or
panic, the stdout lines printed, the `error!` and `info!` log lines, the
number of external-tool invocations, and the cache-write attempts. -/
structure MainOut where
  result : PanicOr Unit
  stdout : List String
  errors : List String
  infos : List String
  spawns : Nat
  writes : List (String × String)

/-- The `0..=86400` arm of the freshness match in `main`: load the cached
measurement; on failure log the error and return (src/src/main.rs:184-195). -/
def runCached (env : Env) (elapsed : Nat) : MainOut :=
  let infos := ["Using buffered file: elapse = " ++ natToString elapsed]
  match get_buffered_internet_info env with
  | (.error e, logs) => ⟨.ret (), [], logs ++ [e], infos, 0, []⟩
  | (.ok info, logs) => ⟨.ret (), [statusLine info], logs, infos, 0, []⟩

/-- The `_` arm of the freshness match in `main` (stale cache): fetch fresh;
on failure log the error and return (src/src/main.rs:196-206). -/
def runFetchStale (env : Env) : MainOut :=
  let infos := ["Buffered file is out of date"]
  match get_new_internet_info env with
  | .panic m => ⟨.panic m, [], [], infos, 1, []⟩
  | .ret fo =>
      match fo.result with
      | .error e => ⟨.ret (), [], [e], infos ++ fo.infos, fo.spawns, fo.writes⟩
      | .ok info => ⟨.ret (), [statusLine info], [], infos ++ fo.infos, fo.spawns, fo.writes⟩

/-- The `Err` arm of the freshness match in `main` (cache absent/unreadable):
fetch fresh; on failure log both errors and return
(src/src/main.rs:208-221). -/
def runFetchAbsent (env : Env) (e : String) : MainOut :=
  let infos := ["Buffered file doesn\x27t exist"]
  match get_new_internet_info env with
  | .panic m => ⟨.panic m, [], [], infos, 1, []⟩
  | .ret fo =>
      match fo.result with
      | .error e2 =>
          ⟨.ret (), [],
            ["File didn\x27t exist: Error: " ++ e ++ ". Tried to create it: Error: " ++ e2],
            infos ++ fo.infos, fo.spawns, fo.writes⟩
      | .ok info => ⟨.ret (), [statusLine info], [], infos ++ fo.infos, fo.spawns, fo.writes⟩

/-- Translation of `main` (src/src/main.rs:159-231).  The log4rs initialization
(lines 160-174) only configures the log sink and is modelled as
succeeding; log lines are collected in the output record.  `main`
resolves the cache path, classifies its age, branches to the cached-load
or fresh-fetch arm, and prints the status line on success. -/
def main (env : Env) : MainOut :=
  match get_buffered_filename env with
  | .error e => ⟨.ret (), [], [e], [], 0, []⟩
  | .ok path =>
      match get_seconds_since_file_modified env path with
      | .ok elapsed =>
          if elapsed ≤ 86400 then runCached env elapsed else runFetchStale env
      | .error e => runFetchAbsent env e

/-- The process exit status determined by the Rust runtime: `main`
returning `()` exits with status 0; a panic exits with status 101. -/
def processExitCode (o : MainOut) : Nat :=
  match o.result with
  | .ret _ => 0
  | .panic _ => 101

/-- An environment built from constant answers, used to instantiate the
theorems at concrete worlds. -/
@[reducible] def mkEnv (xdg : Except String String) (md : Except String FileMeta) (now : Int)
    (spawn : Except String CmdOutput) (jp : Except String Fast)
    (rf : Except String String) (wf : Except String Unit) : Env :=
  ⟨xdg, fun _ => md, now, spawn, fun _ => jp, fun _ => rf, fun _ _ => wf⟩

/-- A world with a fresh cache file: modified at time 0, now 86400. -/
def envFreshW : Env :=
  mkEnv (.ok "/tmp") (.ok ⟨true, .ok 0⟩) 86400 (.error "unused")
    (.error "unused") (.ok "garbage") (.ok ())

/-- A world with a stale cache file: modified at time 0, now 86401. -/
def envStaleW : Env :=
  mkEnv (.ok "/tmp") (.ok ⟨true, .ok 0⟩) 86401 (.error "unused")
    (.error "unused") (.ok "garbage") (.ok ())

/-- A world where the cache file cannot be stat-ed. -/
def envAbsentW : Env :=
  mkEnv (.ok "/tmp") (.error "No such file or directory (os error 2)") 0
    (.error "unused") (.error "unused") (.error "unused") (.ok ())

/-- A world where fetch, path resolution and cache write all succeed. -/
def envOkW : Env :=
  mkEnv (.ok "/tmp") (.error "unused") 0 (.ok ⟨true, "json", ""⟩)
    (.ok ⟨100, 120⟩) (.error "unused") (.ok ())

/-- A world where the fetch succeeds but the cache write fails. -/
def envWriteFailW : Env :=
  mkEnv (.ok "/tmp") (.error "unused") 0 (.ok ⟨true, "json", ""⟩)
    (.ok ⟨100, 120⟩) (.error "unused") (.error "Permission denied (os error 13)")

/-- A world with `XDG_CACHE_HOME` unset, a logged-error failure path. -/
def envXdgW : Env :=
  mkEnv (.error "environment variable not found") (.error "unused") 0
    (.error "unused") (.error "unused") (.error "unused") (.ok ())

/-- A failure outcome of `main` is clean: if an error was logged, `main`
returned normally (no panic), printed nothing, and the process exits 0. -/
def FailsClean (o : MainOut) : Prop :=
  o.errors ≠ [] → o.result = .ret () ∧ o.stdout = [] ∧ processExitCode o = 0


/-! ### Codec lemmas -/

lemma stripLit_append (p r : List Char) : stripLit p (p ++ r) = some r := by
  induction p with
  | nil => rfl
  | cons c cs ih => simp [stripLit, ih]

lemma digitVal_digitCh {d : Nat} (h : d < 10) : digitVal (digitCh d) = d := by
  interval_cases d <;> rfl

lemma isDigitCh_digitCh {d : Nat} (h : d < 10) : isDigitCh (digitCh d) = true := by
  interval_cases d <;> rfl

lemma natChars_all_digits (n : Nat) : ∀ c ∈ natChars n, isDigitCh c = true := by
  intro c hc
  unfold natChars at hc
  split at hc
  · rw [List.mem_singleton] at hc
    subst hc
    rfl
  · rw [List.mem_map] at hc
    obtain ⟨d, hd, rfl⟩ := hc
    rw [List.mem_reverse] at hd
    exact isDigitCh_digitCh (Nat.digits_lt_base (by norm_num) hd)

lemma natChars_ne_nil (n : Nat) : natChars n ≠ [] := by
  unfold natChars
  split
  · simp
  · simp only [ne_eq, List.map_eq_nil_iff, List.reverse_eq_nil_iff]
    exact Nat.digits_ne_nil_iff_ne_zero.mpr (by assumption)

lemma readDigits_append (ds : List Char) (h : ∀ c ∈ ds, isDigitCh c = true)
    {c : Char} (hc : isDigitCh c = false) (r : List Char) (acc : Nat) :
    readDigits (ds ++ c :: r) acc
      = (ds.foldl (fun a ch => 10 * a + digitVal ch) acc, c :: r) := by
  induction ds generalizing acc with
  | nil => simp [readDigits, hc]
  | cons d ds ih =>
      have hd : isDigitCh d = true := h d (List.mem_cons_self _ _)
      simp only [List.cons_append, readDigits, hd, if_true, List.foldl_cons]
      exact ih (fun x hx => h x (List.mem_cons_of_mem _ hx)) _

lemma foldl_digitChars (l : List Nat) (h : ∀ d ∈ l, d < 10) (acc : Nat) :
    (l.reverse.map digitCh).foldl (fun a ch => 10 * a + digitVal ch) acc
      = acc * 10 ^ l.length + Nat.ofDigits 10 l := by
  induction l generalizing acc with
  | nil => simp [Nat.ofDigits]
  | cons d t ih =>
      simp only [List.reverse_cons, List.map_append, List.foldl_append, List.map_cons,
        List.map_nil, List.foldl_cons, List.foldl_nil, List.length_cons]
      rw [ih (fun x hx => h x (List.mem_cons_of_mem _ hx)) acc,
        digitVal_digitCh (h d (List.mem_cons_self _ _)), Nat.ofDigits_cons]
      ring

lemma foldl_natChars (n : Nat) :
    (natChars n).foldl (fun a ch => 10 * a + digitVal ch) 0 = n := by
  unfold natChars
  split
  · subst_vars
    rfl
  · rw [foldl_digitChars _ (fun d hd => Nat.digits_lt_base (by norm_num) hd) 0,
      Nat.ofDigits_digits]
    simp

lemma parseNatCh_encode (n : Nat) {c : Char} (hc : isDigitCh c = false) (r : List Char) :
    parseNatCh (natChars n ++ c :: r) = some (n, c :: r) := by
  obtain ⟨c0, cs0, h0⟩ : ∃ c0 cs0, natChars n = c0 :: cs0 := by
    cases h : natChars n with
    | nil => exact absurd h (natChars_ne_nil n)
    | cons a b => exact ⟨a, b, rfl⟩
  have hd0 : isDigitCh c0 = true :=
    natChars_all_digits n c0 (h0 ▸ List.mem_cons_self _ _)
  have hfold := foldl_natChars n
  rw [h0] at hfold ⊢
  simp only [List.cons_append, parseNatCh, hd0, if_true]
  rw [show (c0 :: (cs0 ++ c :: r)) = ((c0 :: cs0) ++ c :: r) from rfl,
    readDigits_append (c0 :: cs0) (fun x hx => natChars_all_digits n x (h0 ▸ hx)) hc r 0,
    hfold]

lemma tomlRoundTrip (f : Fast) : tomlFromStrFast (tomlEncodeFast f) = .ok f := by
  have hnl : isDigitCh (Char.ofNat 10) = false := rfl
  show tomlDecodeFastCh _ = .ok f
  unfold tomlEncodeFast
  simp only [tomlDecodeFastCh, stripLit_append, parseNatCh_encode _ hnl]

/-! ### Helper lemmas about the orchestration -/

lemma gbii_ok_logs (env : Env) (f : Fast) (logs : List String)
    (h : get_buffered_internet_info env = (.ok f, logs)) : logs = [] := by
  unfold get_buffered_internet_info at h
  split at h
  · exact absurd (congrArg Prod.fst h) (by simp)
  · split at h
    · exact absurd (congrArg Prod.fst h) (by simp)
    · split at h
      · exact (congrArg Prod.snd h).symm
      · exact absurd (congrArg Prod.fst h) (by simp)

lemma runCached_spawns (env : Env) (elapsed : Nat) : (runCached env elapsed).spawns = 0 := by
  unfold runCached
  split <;> rfl

lemma gnii_spawns (env : Env) (fo : FetchOut)
    (h : get_new_internet_info env = .ret fo) : fo.spawns = 1 := by
  unfold get_new_internet_info at h
  split at h
  · exact PanicOr.noConfusion h
  · injection h with h
    subst h
    rfl
  · split at h
    · injection h with h
      subst h
      rfl
    · split at h <;>
        · injection h with h
          subst h
          rfl

lemma runFetchStale_spawns (env : Env) : (runFetchStale env).spawns = 1 := by
  unfold runFetchStale
  cases h : get_new_internet_info env with
  | panic m => rfl
  | ret fo =>
      have hs := gnii_spawns env fo h
      cases hr : fo.result <;> simp [hr, hs]

lemma runFetchAbsent_spawns (env : Env) (e : String) :
    (runFetchAbsent env e).spawns = 1 := by
  unfold runFetchAbsent
  cases h : get_new_internet_info env with
  | panic m => rfl
  | ret fo =>
      have hs := gnii_spawns env fo h
      cases hr : fo.result <;> simp [hr, hs]

lemma main_eq (env : Env) (path : String)
    (h : get_buffered_filename env = .ok path) :
    main env
      = match get_seconds_since_file_modified env path with
        | .ok elapsed => if elapsed ≤ 86400 then runCached env elapsed else runFetchStale env
        | .error e => runFetchAbsent env e := by
  unfold main
  rw [h]

lemma runCached_failsClean (env : Env) (e : Nat) : FailsClean (runCached env e) := by
  unfold FailsClean runCached
  cases hb : get_buffered_internet_info env with
  | mk r logs =>
      cases r with
      | error msg => exact fun _ => ⟨rfl, rfl, rfl⟩
      | ok info =>
          intro h
          have h2 : logs ≠ [] := h
          exact absurd (gbii_ok_logs env info logs hb) h2

lemma runFetchStale_failsClean (env : Env) : FailsClean (runFetchStale env) := by
  unfold FailsClean runFetchStale
  split
  · intro h
    exact absurd rfl h
  · split
    · exact fun _ => ⟨rfl, rfl, rfl⟩
    · intro h
      exact absurd rfl h

lemma runFetchAbsent_failsClean (env : Env) (e : String) :
    FailsClean (runFetchAbsent env e) := by
  unfold FailsClean runFetchAbsent
  split
  · intro h
    exact absurd rfl h
  · split
    · exact fun _ => ⟨rfl, rfl, rfl⟩
    · intro h
      exact absurd rfl h


/-! ### The claims -/

/-- C2 (divergence witness): if the external tool cannot be spawned at
all, `get_internet_info` does not return an error result - the
`.expect("Failed to execute command")` in the source panics, aborting the
process. -/
theorem spawn_failure_panics (env : Env) (msg : String)
    (h : env.fastSpawn = .error msg) :
    get_internet_info env = .panic "Failed to execute command" := by
  unfold get_internet_info
  rw [h]

/-- Witness for `spawn_failure_panics`: a world where the spawn fails. -/
theorem spawn_failure_panics_witness :
    get_internet_info
        (mkEnv (.ok "/tmp") (.error "stat failed") 0 (.error "No such file or directory")
          (.error "unused") (.error "unused") (.ok ()))
      = .panic "Failed to execute command" :=
  spawn_failure_panics _ "No such file or directory" rfl

/-- C7: when `XDG_CACHE_HOME` is unset, `main` logs the environment
error and returns before anything else: no stdout line, no external-tool
invocation, no cache write. -/
theorem missing_xdg_no_spawn (env : Env) (e : String)
    (h : env.xdgCacheHome = .error e) :
    main env
      = ⟨.ret (), [], ["Failed to get XDG_CACHE_HOME: " ++ e], [], 0, []⟩ := by
  unfold main get_buffered_filename
  rw [h]

/-- Witness for `missing_xdg_no_spawn`: a world with the variable unset. -/
theorem missing_xdg_no_spawn_witness :
    main (mkEnv (.error "environment variable not found") (.error "stat failed") 0
        (.error "unused") (.error "unused") (.error "unused") (.ok ()))
      = ⟨.ret (), [],
          ["Failed to get XDG_CACHE_HOME: " ++ "environment variable not found"], [], 0, []⟩ :=
  missing_xdg_no_spawn _ "environment variable not found" rfl

/-- C6: a modification time in the future (negative signed duration)
makes the elapsed-time computation return an error result - no panic -
and `main` folds it into the absent/unreadable arm, proceeding to the
fresh-fetch branch. -/
theorem negative_duration_to_fetch (env : Env) (path : String) (m : FileMeta) (t : Int)
    (hmeta : env.metadata path = .ok m) (hfile : m.isFile = true)
    (hmod : m.modified = .ok t) (hneg : env.nowSec < t) :
    get_seconds_since_file_modified env path = .error elapsedErrMsg ∧
    (get_buffered_filename env = .ok path → main env = runFetchAbsent env elapsedErrMsg) := by
  have hsec : get_seconds_since_file_modified env path = .error elapsedErrMsg := by
    unfold get_seconds_since_file_modified
    rw [hmeta]
    simp only [hfile, hmod, Bool.not_true, Bool.false_eq_true, if_false]
    rw [if_pos (by omega)]
  refine ⟨hsec, fun hpath => ?_⟩
  rw [main_eq env path hpath, hsec]

/-- Witness for `negative_duration_to_fetch`: a regular file modified one
second in the future of `now`. -/
theorem negative_duration_to_fetch_witness :
    get_seconds_since_file_modified
        (mkEnv (.ok "/tmp") (.ok ⟨true, .ok 100⟩) 99 (.error "unused")
          (.error "unused") (.error "unused") (.ok ()))
        (pathJoin "/tmp" BUFFER_FILE_PATH)
      = .error elapsedErrMsg :=
  (negative_duration_to_fetch _ _ ⟨true, .ok 100⟩ 100 rfl rfl rfl (by decide)).1

/-- C1: the freshness check is inclusive at the 86400-second threshold:
elapsed values up to and including 86400 take the cached-load arm (which
never invokes the external tool), 86401 and above take the fresh-fetch
arm, and an elapsed-computation error (e.g. unreadable metadata) takes
the fresh-fetch arm for an absent file; both fetch arms invoke the tool
once. -/
theorem freshness_boundary (env : Env) (path : String)
    (hpath : get_buffered_filename env = .ok path) :
    (∀ e, get_seconds_since_file_modified env path = .ok e →
      (e ≤ 86400 → main env = runCached env e) ∧
      (86401 ≤ e → main env = runFetchStale env)) ∧
    (∀ msg, get_seconds_since_file_modified env path = .error msg →
      main env = runFetchAbsent env msg) ∧
    (∀ msg, env.metadata path = .error msg →
      get_seconds_since_file_modified env path
        = .error ("Failed to get metadata for file: \x27" ++ path
            ++ "\x27. Error: \x27" ++ msg ++ "\x27")) ∧
    (∀ e, (runCached env e).spawns = 0) ∧
    (runFetchStale env).spawns = 1 ∧
    (∀ msg, (runFetchAbsent env msg).spawns = 1) := by
  refine ⟨fun e hsec => ⟨fun hle => ?_, fun hgt => ?_⟩, fun msg hsec => ?_,
    fun msg hmeta => ?_, runCached_spawns env, runFetchStale_spawns env,
    runFetchAbsent_spawns env⟩
  · rw [main_eq env path hpath, hsec]
    exact if_pos hle
  · rw [main_eq env path hpath, hsec]
    exact if_neg (by omega)
  · rw [main_eq env path hpath, hsec]
  · unfold get_seconds_since_file_modified
    rw [hmeta]

/-- Witness for `freshness_boundary`: elapsed 86400 is still fresh,
elapsed 86401 is stale, and a stat failure goes to the absent arm. -/
theorem freshness_boundary_witness :
    main envFreshW = runCached envFreshW 86400 ∧
    main envStaleW = runFetchStale envStaleW ∧
    main envAbsentW
      = runFetchAbsent envAbsentW
          ("Failed to get metadata for file: \x27" ++ pathJoin "/tmp" BUFFER_FILE_PATH
            ++ "\x27. Error: \x27" ++ "No such file or directory (os error 2)" ++ "\x27") :=
  ⟨((freshness_boundary envFreshW (pathJoin "/tmp" BUFFER_FILE_PATH) rfl).1 86400 rfl).1
      (by decide),
   ((freshness_boundary envStaleW (pathJoin "/tmp" BUFFER_FILE_PATH) rfl).1 86401 rfl).2
      (by decide),
   (freshness_boundary envAbsentW (pathJoin "/tmp" BUFFER_FILE_PATH) rfl).2.1 _ rfl⟩

/-- C3: when the cache is classified fresh but loading/decoding it
fails, `main` logs the error and returns: nothing is printed, the
external tool is never invoked (0 spawns) and the cache is not touched -
there is no fallback to a fresh fetch. -/
theorem fresh_decode_failure_is_hard (env : Env) (path : String) (e : Nat)
    (msg : String) (logs : List String)
    (hpath : get_buffered_filename env = .ok path)
    (hsec : get_seconds_since_file_modified env path = .ok e)
    (hfresh : e ≤ 86400)
    (hdec : get_buffered_internet_info env = (.error msg, logs)) :
    main env
      = ⟨.ret (), [], logs ++ [msg],
          ["Using buffered file: elapse = " ++ natToString e], 0, []⟩ := by
  have h1 : main env = runCached env e := by
    rw [main_eq env path hpath, hsec]
    exact if_pos hfresh
  rw [h1]
  unfold runCached
  rw [hdec]

/-- Witness for `fresh_decode_failure_is_hard`: a fresh cache file whose
contents do not decode as TOML. -/
theorem fresh_decode_failure_is_hard_witness :
    main (mkEnv (.ok "/tmp") (.ok ⟨true, .ok 0⟩) 100 (.error "unused")
        (.error "unused") (.ok "garbage") (.ok ()))
      = ⟨.ret (), [],
          ["Failed to parse TOML: TOML parse error: expected key downloadSpeed"]
            ++ ["TOML parse error: expected key downloadSpeed"],
          ["Using buffered file: elapse = " ++ natToString 100], 0, []⟩ :=
  fresh_decode_failure_is_hard _ (pathJoin "/tmp" BUFFER_FILE_PATH) 100 _ _
    rfl rfl (by decide) rfl

/-- C4: if the tool exits with non-success status the fetch fails with
the captured stderr, and if its output cannot be decoded the fetch fails
with the decode error; in both cases no cache write is attempted
(`writes = []`). -/
theorem fetch_failure_no_write (env : Env) :
    (∀ out, env.fastSpawn = .ok out → out.success = false →
      get_new_internet_info env
        = .ret ⟨.error ("\tCommand failed:\n" ++ out.stderr), [], [], 1⟩) ∧
    (∀ out e, env.fastSpawn = .ok out → out.success = true →
      env.jsonParse out.stdout = .error e →
      get_new_internet_info env
        = .ret ⟨.error ("Failed to parse JSON: " ++ e),
            ["Command output: " ++ out.stdout], [], 1⟩) := by
  constructor
  · intro out hsp hfail
    unfold get_new_internet_info get_internet_info
    rw [hsp]
    simp [hfail]
  · intro out e hsp hok hjson
    unfold get_new_internet_info get_internet_info
    rw [hsp]
    simp [hok, hjson]

/-- Witness for `fetch_failure_no_write`: a non-zero exit and an
undecodable stdout. -/
theorem fetch_failure_no_write_witness :
    get_new_internet_info (mkEnv (.ok "/tmp") (.error "m") 0
        (.ok ⟨false, "", "speedtest failed: network unreachable"⟩)
        (.error "unused") (.error "unused") (.ok ()))
      = .ret ⟨.error ("\tCommand failed:\n" ++ "speedtest failed: network unreachable"),
          [], [], 1⟩ ∧
    get_new_internet_info (mkEnv (.ok "/tmp") (.error "m") 0
        (.ok ⟨true, "not json", ""⟩)
        (.error "expected value at line 1 column 1") (.error "unused") (.ok ()))
      = .ret ⟨.error ("Failed to parse JSON: " ++ "expected value at line 1 column 1"),
          ["Command output: " ++ "not json"], [], 1⟩ :=
  ⟨(fetch_failure_no_write _).1 ⟨false, "", "speedtest failed: network unreachable"⟩ rfl rfl,
   (fetch_failure_no_write _).2 ⟨true, "not json", ""⟩
     "expected value at line 1 column 1" rfl rfl rfl⟩

/-- C5: the fetch-and-persist operation succeeds with the fetched
measurement exactly when the fetch, the cache-path resolution and the
cache write all succeed; when the write fails, the whole operation
returns the write error even though a measurement was obtained. -/
theorem fetch_persist_success_iff (env : Env) (f : Fast) :
    ((∃ fo, get_new_internet_info env = .ret fo ∧ fo.result = .ok f) ↔
      ((∃ infos, get_internet_info env = .ret (.ok f, infos)) ∧
        ∃ p, get_buffered_filename env = .ok p ∧
          (write_buffered_file env p f).1 = .ok ())) ∧
    (∀ p infos err ws, get_internet_info env = .ret (.ok f, infos) →
      get_buffered_filename env = .ok p →
      write_buffered_file env p f = (.error err, ws) →
      get_new_internet_info env = .ret ⟨.error err, infos, ws, 1⟩) := by
  constructor
  · constructor
    · rintro ⟨fo, hfo, hres⟩
      cases h1 : get_internet_info env with
      | panic m =>
          have hg : get_new_internet_info env = .panic m := by
            unfold get_new_internet_info
            simp only [h1]
          rw [hg] at hfo
          exact PanicOr.noConfusion hfo
      | ret pr =>
          obtain ⟨r, infos⟩ := pr
          cases r with
          | error e =>
              have hg : get_new_internet_info env = .ret ⟨.error e, infos, [], 1⟩ := by
                unfold get_new_internet_info
                simp only [h1]
              rw [hg] at hfo
              injection hfo with h2
              rw [← h2] at hres
              exact absurd hres (by simp)
          | ok g =>
              cases hp : get_buffered_filename env with
              | error e2 =>
                  have hg : get_new_internet_info env = .ret ⟨.error e2, infos, [], 1⟩ := by
                    unfold get_new_internet_info
                    simp only [h1, hp]
                  rw [hg] at hfo
                  injection hfo with h2
                  rw [← h2] at hres
                  exact absurd hres (by simp)
              | ok p =>
                  cases hw : write_buffered_file env p g with
                  | mk wr ws =>
                      cases wr with
                      | ok u =>
                          have hg : get_new_internet_info env
                              = .ret ⟨.ok g, infos, ws, 1⟩ := by
                            unfold get_new_internet_info
                            simp only [h1, hp, hw]
                          rw [hg] at hfo
                          injection hfo with h2
                          rw [← h2] at hres
                          have hgf : g = f := by simpa using hres
                          subst hgf
                          exact ⟨⟨infos, rfl⟩, p, rfl, by rw [hw]⟩
                      | error e3 =>
                          have hg : get_new_internet_info env
                              = .ret ⟨.error e3, infos, ws, 1⟩ := by
                            unfold get_new_internet_info
                            simp only [h1, hp, hw]
                          rw [hg] at hfo
                          injection hfo with h2
                          rw [← h2] at hres
                          exact absurd hres (by simp)
    · rintro ⟨⟨infos, h1⟩, p, hp, hw1⟩
      cases hw : write_buffered_file env p f with
      | mk wr ws =>
          rw [hw] at hw1
          cases wr with
          | error e => exact absurd hw1 (by simp)
          | ok u =>
              refine ⟨⟨.ok f, infos, ws, 1⟩, ?_, rfl⟩
              unfold get_new_internet_info
              simp only [h1, hp, hw]
  · intro p infos err ws h1 hp hw
    unfold get_new_internet_info
    simp only [h1, hp, hw]

/-- Witness for `fetch_persist_success_iff`: a fully-successful run, and
a run whose cache write fails. -/
theorem fetch_persist_success_iff_witness :
    (∃ fo, get_new_internet_info envOkW = .ret fo ∧
      fo.result = .ok (⟨100, 120⟩ : Fast)) ∧
    get_new_internet_info envWriteFailW
      = .ret ⟨.error ("Failed to write buffered file: "
            ++ "Permission denied (os error 13)"),
          ["Command output: " ++ "json"],
          [(pathJoin "/tmp" BUFFER_FILE_PATH, tomlEncodeFast ⟨100, 120⟩)], 1⟩ :=
  ⟨(fetch_persist_success_iff envOkW ⟨100, 120⟩).1.mpr
      ⟨⟨["Command output: " ++ "json"], rfl⟩, pathJoin "/tmp" BUFFER_FILE_PATH, rfl, rfl⟩,
   (fetch_persist_success_iff envWriteFailW ⟨100, 120⟩).2
      (pathJoin "/tmp" BUFFER_FILE_PATH) (["Command output: " ++ "json"]) _ _ rfl rfl rfl⟩

/-- C8: encoding a measurement with the cache TOML serialization and
decoding the text back yields a measurement with identical
`downloadSpeed` and `latency` fields. -/
theorem toml_roundtrip_fields (f : Fast) :
    ∃ s g, tomlToString f = .ok s ∧ tomlFromStrFast s = .ok g ∧
      g.downloadSpeed = f.downloadSpeed ∧ g.latency = f.latency :=
  ⟨tomlEncodeFast f, f, rfl, tomlRoundTrip f, rfl, rfl⟩

/-- C9: presentation is a pure total function of the measurement: the
printed line is the latency-band icon followed by the latency in ms and
the download speed in Mbps, with the "good" band on [0, 50], the
"warning" band on [51, 150], the "bad" band above 150, and no newline
anywhere in the line. -/
theorem presentation_bands (info : Fast) :
    statusLine info
      = iconOf info.latency ++ " " ++ natToString info.latency
          ++ " ms  " ++ natToString info.downloadSpeed ++ " Mbps" ∧
    (info.latency ≤ 50 → iconOf info.latency = goodIcon) ∧
    (51 ≤ info.latency → info.latency ≤ 150 → iconOf info.latency = warnIcon) ∧
    (151 ≤ info.latency → iconOf info.latency = badIcon) ∧
    (∀ c ∈ (statusLine info).data, c ≠ '\n') := by
  refine ⟨rfl, fun h => ?_, fun h1 h2 => ?_, fun h => ?_, fun c hc hEq => ?_⟩
  · unfold iconOf
    rw [if_pos h]
  · unfold iconOf
    rw [if_neg (by omega), if_pos h2]
  · unfold iconOf
    rw [if_neg (by omega), if_neg (by omega)]
  · subst hEq
    unfold statusLine at hc
    simp only [String.data_append, List.mem_append] at hc
    rcases hc with ((((h0 | h1) | h2) | h3) | h4) | h5
    · unfold iconOf at h0
      split at h0
      · exact absurd h0 (by decide)
      · split at h0
        · exact absurd h0 (by decide)
        · exact absurd h0 (by decide)
    · exact absurd h1 (by decide)
    · exact absurd (natChars_all_digits info.latency _ h2) (by decide)
    · exact absurd h3 (by decide)
    · exact absurd (natChars_all_digits info.downloadSpeed _ h4) (by decide)
    · exact absurd h5 (by decide)

/-- Witness for `presentation_bands`: one latency in each band. -/
theorem presentation_bands_witness :
    iconOf (17 : Nat) = goodIcon ∧ iconOf (120 : Nat) = warnIcon ∧
      iconOf (151 : Nat) = badIcon :=
  ⟨(presentation_bands ⟨330, 17⟩).2.1 (by decide),
   (presentation_bands ⟨100, 120⟩).2.2.1 (by decide) (by decide),
   (presentation_bands ⟨1, 151⟩).2.2.2.1 (by decide)⟩

/-- C10: on every failure path that logs an error, `main` returns
normally after logging: nothing is printed to stdout and the process
exit status is 0 (success) even though the run failed. -/
theorem failure_paths_exit_zero (env : Env) (h : (main env).errors ≠ []) :
    (main env).result = .ret () ∧ (main env).stdout = [] ∧
      processExitCode (main env) = 0 := by
  cases hx : get_buffered_filename env with
  | error e =>
      have hm : main env = ⟨.ret (), [], [e], [], 0, []⟩ := by
        unfold main
        rw [hx]
      rw [hm]
      exact ⟨rfl, rfl, rfl⟩
  | ok path =>
      have hm := main_eq env path hx
      cases hs : get_seconds_since_file_modified env path with
      | ok elapsed =>
          rw [hs] at hm
          have hm2 : main env
              = if elapsed ≤ 86400 then runCached env elapsed else runFetchStale env := hm
          by_cases hle : elapsed ≤ 86400
          · rw [if_pos hle] at hm2
            rw [hm2] at h ⊢
            exact runCached_failsClean env elapsed h
          · rw [if_neg hle] at hm2
            rw [hm2] at h ⊢
            exact runFetchStale_failsClean env h
      | error e =>
          rw [hs] at hm
          have hm2 : main env = runFetchAbsent env e := hm
          rw [hm2] at h ⊢
          exact runFetchAbsent_failsClean env e h

/-- Witness for `failure_paths_exit_zero`: the missing-variable failure
path returns normally, prints nothing, and exits 0. -/
theorem failure_paths_exit_zero_witness :
    (main envXdgW).result = .ret () ∧ (main envXdgW).stdout = [] ∧
      processExitCode (main envXdgW) = 0 :=
  failure_paths_exit_zero envXdgW (by decide)

end PolybarSpeed
